import Mathlib

/-!
Shallow embedding of `src/internal/dreamhost/dreamhost.go`, the DreamHost
DNS API client of cert-manager-webhook-dreamhost.

Modelling conventions:
* Go strings are Lean `String`s.
* A Go function returning `(T, error)` where at most one of the pair is
  meaningful is rendered as `Except String T`; `sendRequest`, which can
  return a non-nil response *together with* a non-nil error, and
  `NewClient`, whose nil/non-nil pairing is itself claimed about, are
  rendered as explicit pairs of `Option`s, mirroring the Go tuple.
* `url.Values` is a multimap built by `Add` calls and serialized by
  `Encode`; the claims are about which parameters the query carries, so the
  query is modelled as the association list of `(key, value)` pairs in the
  order the Go code `Add`s them (percent-encoding and `Encode`'s key
  sorting are wire-format details that preserve presence and values).
* The HTTP transport (`c.client.Do`) and `json.Unmarshal` are external
  collaborators; they are modelled as function parameters: the transport as
  `Request → Except String HTTPResponse` and the JSON decoder as
  `String → Except String DreamhostResponse`.
* `io.ReadAll` on a response body can fail, so a transport-level response
  carries its body as `Except String String`.
* `strings.HasSuffix` is modelled on the character list of the string.
-/

namespace Dreamhost

/-- Go constant `agentString = "cert-manager-webhook-dreamhost/0.1"`. -/
def agentString : String := "cert-manager-webhook-dreamhost/0.1"

/-- Go constant `dreamhostBaseUrl = "https://api.dreamhost.com/"`. -/
def dreamhostBaseUrl : String := "https://api.dreamhost.com/"

/-- An outgoing HTTP request: method, URL (without its query), the
`User-Agent` header, and the query parameters in `Add` order
(`http.Request` restricted to what this client sets and the transport
observes). -/
structure Request where
  method : String
  url : String
  userAgent : String
  query : List (String × String)
  deriving Repr, DecidableEq

/-- What `c.client.Do` hands back on success: the HTTP status code and the
result of `io.ReadAll` on the body (which can itself fail). -/
structure HTTPResponse where
  StatusCode : Int
  Body : Except String String
  deriving Repr

/-- The HTTP transport: `http.Client.Do`, returning either a transport
error or a response. -/
def HTTPTransport : Type := Request → Except String HTTPResponse

/-- Go struct `DreamhostResponse { Result string; Data string; Reason string }`. -/
structure DreamhostResponse where
  Result : String
  Data : String
  Reason : String
  deriving Repr, DecidableEq

/-- Go's `%v` rendering of a `DreamhostResponse` value, as interpolated by
`fmt.Errorf("dreamhost API returned non-successful result: %v", apiResp)`:
`{Result Data Reason}` with single spaces. -/
def DreamhostResponse.format (r : DreamhostResponse) : String :=
  "\x7b" ++ r.Result ++ " " ++ r.Data ++ " " ++ r.Reason ++ "\x7d"

/-- Go struct `DNSRecordValue { Name string; RecordType string; Value string }`. -/
structure DNSRecordValue where
  Name : String
  RecordType : String
  Value : String
  deriving Repr, DecidableEq

/-- Go struct `DNSClient { apiKey string; client *http.Client; BaseURL *url.URL }`.
The parsed `BaseURL` is represented by its `String()` rendering, the only
observation `sendRequest` makes of it. -/
structure DNSClient where
  apiKey : String
  client : HTTPTransport
  BaseURL : String

/-- Go's `strings.HasSuffix s suffix`. -/
def hasSuffix (s suffix : String) : Bool :=
  suffix.data.isSuffixOf s.data

/-- Go function `NewClient(apiKey string, httpClient *http.Client, baseUrl string) (*DNSClient, error)`.

`url.Parse` is external; it is passed in as `parseURL`, returning the
`String()` rendering of the parsed URL on success. The default transport
Go builds (`&http.Client{Timeout: 15s}`) is likewise external and passed
in as `defaultTransport`. The Go tuple `(*DNSClient, error)` is kept as an
explicit pair of `Option`s. -/
def NewClient (parseURL : String → Except String String)
    (defaultTransport : HTTPTransport)
    (apiKey : String) (httpClient : Option HTTPTransport) (baseUrl : String) :
    Option DNSClient × Option String :=
  if apiKey = "" then
    (none, some "empty apiKey")
  else
    let httpClient := httpClient.getD defaultTransport
    let baseUrl := if baseUrl = "" then dreamhostBaseUrl else baseUrl
    match parseURL baseUrl with
    | .error e => (none, some ("failed to parse URL: " ++ e))
    | .ok apiUrl => (some ⟨apiKey, httpClient, apiUrl⟩, none)

/-- Go method `(c *DNSClient) prepareRequest(req *http.Request, cmd string, uniqueId string)`:
sets the `User-Agent` header and adds the `key`, `cmd`, `format` and
(when non-empty) `unique_id` query parameters. -/
def DNSClient.prepareRequest (c : DNSClient) (req : Request)
    (cmd uniqueId : String) : Request :=
  let q := req.query
  let q := q ++ [("key", c.apiKey)]
  let q := q ++ [("cmd", cmd)]
  let q := q ++ [("format", "json")]
  let q := if uniqueId ≠ "" then q ++ [("unique_id", uniqueId)] else q
  { req with userAgent := agentString, query := q }

/-- Go method `(r *DNSRecordValue) addToReq(req *http.Request) error`: validates
the three record fields in order and, when all are non-empty, adds the
`record`, `type` and `value` query parameters. -/
def DNSRecordValue.addToReq (r : DNSRecordValue) (req : Request) :
    Except String Request :=
  if r.Name = "" then
    .error "DNSRecordValue.Name must not be empty"
  else if r.RecordType = "" then
    .error "DNSRecordValue.RecordType must not be empty"
  else if r.Value = "" then
    .error "DNSRecordValue.Value must not be empty"
  else
    let q := req.query
    let q := q ++ [("record", r.Name)]
    let q := q ++ [("type", r.RecordType)]
    let q := q ++ [("value", r.Value)]
    .ok { req with query := q }

/-- The request-construction prefix of `sendRequest`: the trailing-slash
fix-up on `c.BaseURL.String()`, `http.NewRequest("GET", apiUrl, nil)`
(which cannot fail here: the method is the literal `"GET"` and the URL is
the rendering of an already-parsed URL), `prepareRequest`, and `addToReq`.
Its `.ok` value is exactly the request `sendRequest` hands to the
transport. -/
def DNSClient.buildRequest (c : DNSClient) (cmd uniqueId : String)
    (r : DNSRecordValue) : Except String Request :=
  let apiUrl := c.BaseURL
  let apiUrl := if ¬ hasSuffix apiUrl "/" then apiUrl ++ "/" else apiUrl
  let req : Request := ⟨"GET", apiUrl, "", []⟩
  let req := c.prepareRequest req cmd uniqueId
  r.addToReq req

/-- The response-classification suffix of `sendRequest`, from the
`resp, err := c.client.Do(req)` call on: transport failure, status-code
check, `io.ReadAll`, `json.Unmarshal` (modelled by `unmarshal`), and the
non-success result check. Its argument is the outcome of `c.client.Do`. -/
def classifyResponse (unmarshal : String → Except String DreamhostResponse)
    (outcome : Except String HTTPResponse) :
    Option DreamhostResponse × Option String :=
  match outcome with
  | .error e => (none, some ("HTTP request failed: " ++ e))
  | .ok resp =>
    if resp.StatusCode < 200 ∨ resp.StatusCode ≥ 300 then
      (none, some ("dreamhost API returned unexpected status code "
        ++ toString resp.StatusCode))
    else
      match resp.Body with
      | .error e => (none, some ("failed to read HTTP body: " ++ e))
      | .ok body =>
        match unmarshal body with
        | .error e => (none, some ("failed to parse response: " ++ e))
        | .ok apiResp =>
          if apiResp.Result ≠ "success" then
            (some apiResp,
             some ("dreamhost API returned non-successful result: "
               ++ apiResp.format))
          else
            (some apiResp, none)

/-- Go method `(c *DNSClient) sendRequest(r *DNSRecordValue, cmd string, uniqueId string) (*DreamhostResponse, error)`:
builds the request (`buildRequest`), invokes the transport on it, and
classifies the outcome (`classifyResponse`). The Go return pair, whose
components can be non-nil simultaneously (the non-success branch), is kept
as a pair of `Option`s. -/
def DNSClient.sendRequest (c : DNSClient)
    (unmarshal : String → Except String DreamhostResponse)
    (r : DNSRecordValue) (cmd uniqueId : String) :
    Option DreamhostResponse × Option String :=
  match c.buildRequest cmd uniqueId r with
  | .error e => (none, some e)
  | .ok req => classifyResponse unmarshal (c.client req)

/-- Go function `suppressUniqueIdUsedErr(resp *DreamhostResponse, err error) error`. -/
def suppressUniqueIdUsedErr (resp : Option DreamhostResponse)
    (err : Option String) : Option String :=
  match err, resp with
  | some _, some rsp =>
    if rsp.Data = "unique_id_already_used" then none else err
  | _, _ => err

/-- Go method `(c *DNSClient) CreateRecord(r DNSRecordValue, uniqueId string) error`. -/
def DNSClient.CreateRecord (c : DNSClient)
    (unmarshal : String → Except String DreamhostResponse)
    (r : DNSRecordValue) (uniqueId : String) : Option String :=
  let p := c.sendRequest unmarshal r "dns-add_record" uniqueId
  suppressUniqueIdUsedErr p.1 p.2

/-- Go method `(c *DNSClient) DeleteRecord(r DNSRecordValue, uniqueId string) error`. -/
def DNSClient.DeleteRecord (c : DNSClient)
    (unmarshal : String → Except String DreamhostResponse)
    (r : DNSRecordValue) (uniqueId : String) : Option String :=
  let p := c.sendRequest unmarshal r "dns-remove_record" uniqueId
  suppressUniqueIdUsedErr p.1 p.2

end Dreamhost

namespace Dreamhost

/-- Appending `t` to any string yields a string with suffix `t`
(`strings.HasSuffix (s + t) t` holds). -/
theorem hasSuffix_append_self (s t : String) : hasSuffix (s ++ t) t = true := by
  simp [hasSuffix, String.data_append, List.isSuffixOf, List.isPrefixOf_iff_prefix]

/-- C1: For every call to `CreateRecord` or `DeleteRecord`, if `sendRequest`
returned both a non-nil parsed response and a non-nil error and the
response's `Data` field equals `"unique_id_already_used"`, the operation
returns nil (success); in every other case where an error was produced,
that error is returned to the caller unchanged. -/
theorem createDelete_suppress_unique_id
    (c : DNSClient) (um : String → Except String DreamhostResponse)
    (r : DNSRecordValue) (uid : String) :
    (∀ rsp e, c.sendRequest um r "dns-add_record" uid = (some rsp, some e) →
      rsp.Data = "unique_id_already_used" → c.CreateRecord um r uid = none) ∧
    (∀ rsp e, c.sendRequest um r "dns-add_record" uid = (some rsp, some e) →
      rsp.Data ≠ "unique_id_already_used" → c.CreateRecord um r uid = some e) ∧
    (∀ e, c.sendRequest um r "dns-add_record" uid = (none, some e) →
      c.CreateRecord um r uid = some e) ∧
    (∀ rsp e, c.sendRequest um r "dns-remove_record" uid = (some rsp, some e) →
      rsp.Data = "unique_id_already_used" → c.DeleteRecord um r uid = none) ∧
    (∀ rsp e, c.sendRequest um r "dns-remove_record" uid = (some rsp, some e) →
      rsp.Data ≠ "unique_id_already_used" → c.DeleteRecord um r uid = some e) ∧
    (∀ e, c.sendRequest um r "dns-remove_record" uid = (none, some e) →
      c.DeleteRecord um r uid = some e) := by
  refine ⟨?_, ?_, ?_, ?_, ?_, ?_⟩
  · intro rsp e h hd
    simp [DNSClient.CreateRecord, h, suppressUniqueIdUsedErr, hd]
  · intro rsp e h hd
    simp [DNSClient.CreateRecord, h, suppressUniqueIdUsedErr, hd]
  · intro e h
    simp [DNSClient.CreateRecord, h, suppressUniqueIdUsedErr]
  · intro rsp e h hd
    simp [DNSClient.DeleteRecord, h, suppressUniqueIdUsedErr, hd]
  · intro rsp e h hd
    simp [DNSClient.DeleteRecord, h, suppressUniqueIdUsedErr, hd]
  · intro e h
    simp [DNSClient.DeleteRecord, h, suppressUniqueIdUsedErr]

/-- Witness for C1: a non-success response whose `Data` is the sentinel is
suppressed into success at a concrete client, transport and record. -/
theorem claim1_witness :
    (DNSClient.mk "k" (fun _ => .ok ⟨200, .ok "B"⟩) "b/").CreateRecord
      (fun _ => .ok ⟨"error", "unique_id_already_used", ""⟩) ⟨"n", "TXT", "v"⟩ "u" = none :=
  (createDelete_suppress_unique_id (DNSClient.mk "k" (fun _ => .ok ⟨200, .ok "B"⟩) "b/")
      (fun _ => .ok ⟨"error", "unique_id_already_used", ""⟩) ⟨"n", "TXT", "v"⟩ "u").1
    ⟨"error", "unique_id_already_used", ""⟩
    "dreamhost API returned non-successful result: \x7berror unique_id_already_used \x7d"
    rfl rfl

/-- C2: For every record value with at least one empty field, `CreateRecord`
and `DeleteRecord` return the error naming exactly the first empty field in
the order `Name`, `RecordType`, `Value`, and the HTTP transport is never
invoked: the result is the same for every transport. -/
theorem createDelete_validation_first_empty_field
    (c : DNSClient) (um : String → Except String DreamhostResponse)
    (r : DNSRecordValue) (uid : String) :
    (r.Name = "" →
      c.CreateRecord um r uid = some "DNSRecordValue.Name must not be empty" ∧
      c.DeleteRecord um r uid = some "DNSRecordValue.Name must not be empty") ∧
    (r.Name ≠ "" → r.RecordType = "" →
      c.CreateRecord um r uid = some "DNSRecordValue.RecordType must not be empty" ∧
      c.DeleteRecord um r uid = some "DNSRecordValue.RecordType must not be empty") ∧
    (r.Name ≠ "" → r.RecordType ≠ "" → r.Value = "" →
      c.CreateRecord um r uid = some "DNSRecordValue.Value must not be empty" ∧
      c.DeleteRecord um r uid = some "DNSRecordValue.Value must not be empty") ∧
    ((r.Name = "" ∨ r.RecordType = "" ∨ r.Value = "") → ∀ t' : HTTPTransport,
      (DNSClient.mk c.apiKey t' c.BaseURL).CreateRecord um r uid
        = c.CreateRecord um r uid ∧
      (DNSClient.mk c.apiKey t' c.BaseURL).DeleteRecord um r uid
        = c.DeleteRecord um r uid) := by
  refine ⟨?_, ?_, ?_, ?_⟩
  · intro h
    constructor <;>
      simp [DNSClient.CreateRecord, DNSClient.DeleteRecord, DNSClient.sendRequest,
        DNSClient.buildRequest, DNSRecordValue.addToReq, h, suppressUniqueIdUsedErr]
  · intro h1 h2
    constructor <;>
      simp [DNSClient.CreateRecord, DNSClient.DeleteRecord, DNSClient.sendRequest,
        DNSClient.buildRequest, DNSRecordValue.addToReq, h1, h2, suppressUniqueIdUsedErr]
  · intro h1 h2 h3
    constructor <;>
      simp [DNSClient.CreateRecord, DNSClient.DeleteRecord, DNSClient.sendRequest,
        DNSClient.buildRequest, DNSRecordValue.addToReq, h1, h2, h3, suppressUniqueIdUsedErr]
  · intro h t'
    by_cases hn : r.Name = "" <;> by_cases ht : r.RecordType = "" <;>
      by_cases hv : r.Value = "" <;>
        simp_all [DNSClient.CreateRecord, DNSClient.DeleteRecord, DNSClient.sendRequest,
          DNSClient.buildRequest, DNSRecordValue.addToReq, suppressUniqueIdUsedErr]

/-- Witness for C2: an empty `Name` yields the `Name` validation error at a
concrete client and record. -/
theorem claim2_witness :
    (DNSClient.mk "k" (fun _ => .ok ⟨200, .ok "B"⟩) "b/").CreateRecord
      (fun _ => .ok ⟨"success", "", ""⟩) ⟨"", "TXT", "v"⟩ ""
      = some "DNSRecordValue.Name must not be empty" :=
  ((createDelete_validation_first_empty_field (DNSClient.mk "k" (fun _ => .ok ⟨200, .ok "B"⟩) "b/")
      (fun _ => .ok ⟨"success", "", ""⟩) ⟨"", "TXT", "v"⟩ "").1 rfl).1

/-- C3: For every valid record value, the GET request handed to the
transport carries the `key`, `cmd`, `format=json`, `record`, `type` and
`value` query parameters; it carries `unique_id` equal to the caller's
identifier exactly when that identifier is non-empty, and carries no
`unique_id` parameter at all when the identifier is empty. -/
theorem buildRequest_query_params
    (c : DNSClient) (cmd uid : String) (r : DNSRecordValue)
    (hn : r.Name ≠ "") (ht : r.RecordType ≠ "") (hv : r.Value ≠ "") :
    ∃ req, c.buildRequest cmd uid r = .ok req ∧
      req.method = "GET" ∧
      ("key", c.apiKey) ∈ req.query ∧
      ("cmd", cmd) ∈ req.query ∧
      ("format", "json") ∈ req.query ∧
      ("record", r.Name) ∈ req.query ∧
      ("type", r.RecordType) ∈ req.query ∧
      ("value", r.Value) ∈ req.query ∧
      (uid ≠ "" → ("unique_id", uid) ∈ req.query) ∧
      (uid = "" → ∀ v, ("unique_id", v) ∉ req.query) := by
  by_cases hu : uid = "" <;>
    simp [DNSClient.buildRequest, DNSClient.prepareRequest, DNSRecordValue.addToReq,
      hn, ht, hv, hu, Prod.ext_iff]

/-- Witness for C3: the request built for a concrete valid record carries
all six parameters and no `unique_id` when the identifier is empty. -/
theorem claim3_witness :
    ∃ req, (DNSClient.mk "k" (fun _ => .ok ⟨200, .ok "B"⟩) "b/").buildRequest
        "dns-add_record" "" ⟨"n", "TXT", "v"⟩ = .ok req ∧
      req.method = "GET" ∧
      ("key", "k") ∈ req.query ∧
      ("cmd", "dns-add_record") ∈ req.query ∧
      ("format", "json") ∈ req.query ∧
      ("record", "n") ∈ req.query ∧
      ("type", "TXT") ∈ req.query ∧
      ("value", "v") ∈ req.query ∧
      (("" : String) ≠ "" → ("unique_id", "") ∈ req.query) ∧
      (("" : String) = "" → ∀ v, ("unique_id", v) ∉ req.query) :=
  buildRequest_query_params (DNSClient.mk "k" (fun _ => .ok ⟨200, .ok "B"⟩) "b/")
    "dns-add_record" "" ⟨"n", "TXT", "v"⟩ (by decide) (by decide) (by decide)

end Dreamhost

namespace Dreamhost

/-- C4: For every 2xx response whose body parses but whose `Result` field is
anything other than `"success"`, `sendRequest` returns the parsed response
(never nil in this branch) together with an error whose message contains
"dreamhost API returned non-successful result", so the suppression check
can inspect its `Data` field. -/
theorem sendRequest_nonsuccess_returns_resp_and_err
    (c : DNSClient) (um : String → Except String DreamhostResponse)
    (r : DNSRecordValue) (cmd uid : String) (req : Request)
    (httpResp : HTTPResponse) (body : String) (apiResp : DreamhostResponse)
    (hreq : c.buildRequest cmd uid r = .ok req)
    (hdo : c.client req = .ok httpResp)
    (hlo : 200 ≤ httpResp.StatusCode) (hhi : httpResp.StatusCode < 300)
    (hbody : httpResp.Body = .ok body)
    (hum : um body = .ok apiResp)
    (hres : apiResp.Result ≠ "success") :
    c.sendRequest um r cmd uid =
      (some apiResp,
       some ("dreamhost API returned non-successful result: " ++ apiResp.format)) := by
  have hst : ¬ (httpResp.StatusCode < 200 ∨ httpResp.StatusCode ≥ 300) := by omega
  simp [DNSClient.sendRequest, hreq, classifyResponse, hdo, hst, hbody, hum, hres]

/-- Witness for C4: a 200 response parsed to a non-success result yields
the non-successful-result error together with the parsed response. -/
theorem claim4_witness :
    (DNSClient.mk "k" (fun _ => .ok ⟨200, .ok "B"⟩) "b/").sendRequest
      (fun _ => .ok ⟨"error", "x", "y"⟩) ⟨"n", "TXT", "v"⟩ "dns-add_record" "u"
      = (some ⟨"error", "x", "y"⟩,
         some "dreamhost API returned non-successful result: \x7berror x y\x7d") :=
  sendRequest_nonsuccess_returns_resp_and_err
    (DNSClient.mk "k" (fun _ => .ok ⟨200, .ok "B"⟩) "b/")
    (fun _ => .ok ⟨"error", "x", "y"⟩) ⟨"n", "TXT", "v"⟩ "dns-add_record" "u"
    ⟨"GET", "b/", agentString,
      [("key", "k"), ("cmd", "dns-add_record"), ("format", "json"), ("unique_id", "u"),
       ("record", "n"), ("type", "TXT"), ("value", "v")]⟩
    ⟨200, .ok "B"⟩ "B" ⟨"error", "x", "y"⟩
    rfl rfl (by decide) (by decide) rfl rfl (by decide)

/-- C5: For every response whose HTTP status code is outside 200–299, the
request path returns a nil response and the error
"dreamhost API returned unexpected status code N", regardless of the
response body's content: the status is checked before the body is read or
parsed. -/
theorem sendRequest_bad_status
    (c : DNSClient) (um : String → Except String DreamhostResponse)
    (r : DNSRecordValue) (cmd uid : String) (req : Request)
    (httpResp : HTTPResponse)
    (hreq : c.buildRequest cmd uid r = .ok req)
    (hdo : c.client req = .ok httpResp)
    (hstat : httpResp.StatusCode < 200 ∨ 300 ≤ httpResp.StatusCode) :
    c.sendRequest um r cmd uid =
      (none, some ("dreamhost API returned unexpected status code "
        ++ toString httpResp.StatusCode)) := by
  have hst : httpResp.StatusCode < 200 ∨ httpResp.StatusCode ≥ 300 := hstat
  simp [DNSClient.sendRequest, hreq, classifyResponse, hdo, hst]

/-- Witness for C5: a 500 response with a well-formed success body still
yields the status-code error. -/
theorem claim5_witness :
    (DNSClient.mk "k" (fun _ => .ok ⟨500, .ok "ok-body"⟩) "b/").sendRequest
      (fun _ => .ok ⟨"success", "", ""⟩) ⟨"n", "TXT", "v"⟩ "dns-add_record" ""
      = (none, some "dreamhost API returned unexpected status code 500") :=
  sendRequest_bad_status
    (DNSClient.mk "k" (fun _ => .ok ⟨500, .ok "ok-body"⟩) "b/")
    (fun _ => .ok ⟨"success", "", ""⟩) ⟨"n", "TXT", "v"⟩ "dns-add_record" ""
    ⟨"GET", "b/", agentString,
      [("key", "k"), ("cmd", "dns-add_record"), ("format", "json"),
       ("record", "n"), ("type", "TXT"), ("value", "v")]⟩
    ⟨500, .ok "ok-body"⟩ rfl rfl (by decide)

/-- C6: `NewClient` returns a configuration error and a nil client whenever
the API key is empty, and whenever a supplied base URL string cannot be
parsed; it never returns a non-nil client together with an error. -/
theorem NewClient_config_errors
    (parseURL : String → Except String String) (defT : HTTPTransport)
    (apiKey : String) (httpClient : Option HTTPTransport) (baseUrl : String) :
    (apiKey = "" →
      NewClient parseURL defT apiKey httpClient baseUrl = (none, some "empty apiKey")) ∧
    (∀ e, apiKey ≠ "" → baseUrl ≠ "" → parseURL baseUrl = .error e →
      NewClient parseURL defT apiKey httpClient baseUrl
        = (none, some ("failed to parse URL: " ++ e))) ∧
    (∀ cl err, NewClient parseURL defT apiKey httpClient baseUrl ≠ (some cl, some err)) := by
  refine ⟨?_, ?_, ?_⟩
  · intro h; simp [NewClient, h]
  · intro e h1 h2 h3; simp [NewClient, h1, h2, h3]
  · intro cl err h
    by_cases hk : apiKey = ""
    · simp [NewClient, hk] at h
    · simp [NewClient, hk] at h
      rcases hp : parseURL (if baseUrl = "" then dreamhostBaseUrl else baseUrl) with e | u <;>
        simp [hp] at h

/-- Witness for C6: constructing a client with an empty API key returns a
nil client and the configuration error. -/
theorem claim6_witness :
    NewClient (fun s => .ok s) (fun _ => .ok ⟨200, .ok "B"⟩) "" none "b/"
      = (none, some "empty apiKey") :=
  (NewClient_config_errors (fun s => .ok s) (fun _ => .ok ⟨200, .ok "B"⟩) "" none "b/").1 rfl

end Dreamhost

namespace Dreamhost

/-- C7 counterexample: the claim that the URL the GET request is sent to
always ends with exactly one trailing slash is false: with a base URL
already ending in two slashes the code appends nothing, so the sent URL
ends with two slashes. Refuted at `BaseURL = "b//"`. -/
theorem buildRequest_url_double_slash_cex :
    ¬ (∀ (c : DNSClient) (cmd uid : String) (r : DNSRecordValue) (req : Request),
        c.buildRequest cmd uid r = .ok req →
        (hasSuffix req.url "/" = true ∧ hasSuffix req.url "//" = false)) := by
  intro h
  have hc := (h ⟨"k", fun _ => .ok ⟨200, .ok ""⟩, "b//"⟩ "dns-add_record" "" ⟨"n", "TXT", "v"⟩
      ⟨"GET", "b//", agentString,
        [("key", "k"), ("cmd", "dns-add_record"), ("format", "json"),
         ("record", "n"), ("type", "TXT"), ("value", "v")]⟩ rfl).2
  have ht : hasSuffix "b//" "//" = true := by decide
  rw [ht] at hc
  exact Bool.noConfusion hc

/-- C7 (amended): the URL the GET request is sent to always ends with a
trailing slash; a slash is appended exactly when the configured base URL
lacks one, and a base URL already ending in a slash is used unchanged (so
it may keep more than one trailing slash). -/
theorem buildRequest_url_trailing_slash
    (c : DNSClient) (cmd uid : String) (r : DNSRecordValue) (req : Request)
    (h : c.buildRequest cmd uid r = .ok req) :
    hasSuffix req.url "/" = true ∧
    req.url = (if ¬ hasSuffix c.BaseURL "/" then c.BaseURL ++ "/" else c.BaseURL) := by
  have hurl : req.url = (if ¬ hasSuffix c.BaseURL "/" then c.BaseURL ++ "/" else c.BaseURL) := by
    simp [DNSClient.buildRequest, DNSClient.prepareRequest, DNSRecordValue.addToReq] at h
    split_ifs at h <;>
      first
        | exact Except.noConfusion h
        | (injection h with h; subst h; simp [*])
  refine ⟨?_, hurl⟩
  rw [hurl]
  by_cases hb : hasSuffix c.BaseURL "/"
  · simp [hb]
  · simp [hb, hasSuffix_append_self]

/-- Witness for C7 (amended): with base URL `"b"` the request URL is
`"b/"`, which ends with a slash and equals the base with a slash appended. -/
theorem claim7_witness :
    hasSuffix (Request.mk "GET" "b/" agentString
      [("key", "k"), ("cmd", "dns-add_record"), ("format", "json"),
       ("record", "n"), ("type", "TXT"), ("value", "v")]).url "/" = true ∧
    (Request.mk "GET" "b/" agentString
      [("key", "k"), ("cmd", "dns-add_record"), ("format", "json"),
       ("record", "n"), ("type", "TXT"), ("value", "v")]).url
      = (if ¬ hasSuffix (DNSClient.mk "k" (fun _ => .ok ⟨200, .ok "B"⟩) "b").BaseURL "/"
         then (DNSClient.mk "k" (fun _ => .ok ⟨200, .ok "B"⟩) "b").BaseURL ++ "/"
         else (DNSClient.mk "k" (fun _ => .ok ⟨200, .ok "B"⟩) "b").BaseURL) :=
  buildRequest_url_trailing_slash (DNSClient.mk "k" (fun _ => .ok ⟨200, .ok "B"⟩) "b")
    "dns-add_record" "" ⟨"n", "TXT", "v"⟩
    ⟨"GET", "b/", agentString,
      [("key", "k"), ("cmd", "dns-add_record"), ("format", "json"),
       ("record", "n"), ("type", "TXT"), ("value", "v")]⟩ rfl

/-- C8: `CreateRecord` and `DeleteRecord` are the same computation up to the
`cmd` query parameter: each is the suppression rule applied to
`sendRequest` with its own command; the two built requests agree on
method, URL and user agent and their queries differ only in the `cmd`
entry (`dns-add_record` vs `dns-remove_record`); and when the transport
answers both requests identically the two operations return equal
results. -/
theorem createDelete_differ_only_in_cmd
    (c : DNSClient) (um : String → Except String DreamhostResponse)
    (r : DNSRecordValue) (uid : String) :
    (c.CreateRecord um r uid =
      suppressUniqueIdUsedErr (c.sendRequest um r "dns-add_record" uid).1
        (c.sendRequest um r "dns-add_record" uid).2) ∧
    (c.DeleteRecord um r uid =
      suppressUniqueIdUsedErr (c.sendRequest um r "dns-remove_record" uid).1
        (c.sendRequest um r "dns-remove_record" uid).2) ∧
    (∀ ra rd, c.buildRequest "dns-add_record" uid r = .ok ra →
        c.buildRequest "dns-remove_record" uid r = .ok rd →
      ra.method = rd.method ∧ ra.url = rd.url ∧ ra.userAgent = rd.userAgent ∧
      ra.query = rd.query.map
        (fun kv => if kv.1 = "cmd" then (kv.1, "dns-add_record") else kv) ∧
      (c.client ra = c.client rd →
        c.CreateRecord um r uid = c.DeleteRecord um r uid)) := by
  refine ⟨rfl, rfl, ?_⟩
  intro ra rd h1 h2
  simp [DNSClient.buildRequest, DNSClient.prepareRequest, DNSRecordValue.addToReq] at h1 h2
  split_ifs at h1 h2 <;>
    first
      | exact Except.noConfusion h1
      | (injection h1 with h1; injection h2 with h2; subst h1; subst h2
         refine ⟨rfl, rfl, rfl, by simp, ?_⟩
         intro hcc
         simp only [List.cons_append, List.nil_append] at hcc
         simp [DNSClient.CreateRecord, DNSClient.DeleteRecord, DNSClient.sendRequest,
           DNSClient.buildRequest, DNSClient.prepareRequest, DNSRecordValue.addToReq,
           hcc, *])

/-- Witness for C8: with a constant transport the two operations return the
same result on a concrete record. -/
theorem claim8_witness :
    (DNSClient.mk "k" (fun _ => .ok ⟨200, .ok "B"⟩) "b/").CreateRecord
      (fun _ => .ok ⟨"success", "", ""⟩) ⟨"n", "TXT", "v"⟩ ""
      = (DNSClient.mk "k" (fun _ => .ok ⟨200, .ok "B"⟩) "b/").DeleteRecord
        (fun _ => .ok ⟨"success", "", ""⟩) ⟨"n", "TXT", "v"⟩ "" :=
  ((createDelete_differ_only_in_cmd (DNSClient.mk "k" (fun _ => .ok ⟨200, .ok "B"⟩) "b/")
      (fun _ => .ok ⟨"success", "", ""⟩) ⟨"n", "TXT", "v"⟩ "").2.2
    ⟨"GET", "b/", agentString,
      [("key", "k"), ("cmd", "dns-add_record"), ("format", "json"),
       ("record", "n"), ("type", "TXT"), ("value", "v")]⟩
    ⟨"GET", "b/", agentString,
      [("key", "k"), ("cmd", "dns-remove_record"), ("format", "json"),
       ("record", "n"), ("type", "TXT"), ("value", "v")]⟩
    rfl rfl).2.2.2.2 rfl

end Dreamhost

namespace Dreamhost

/-- C9: If the response has a 2xx status but reading its body fails, the
request path returns a nil response and an error wrapping the cause with
the message "failed to read HTTP body" (distinct from the parse-failure
class), so the idempotency suppression rule can never convert this error
to success: `CreateRecord` and `DeleteRecord` return it unchanged. -/
theorem sendRequest_body_read_failure
    (c : DNSClient) (um : String → Except String DreamhostResponse)
    (r : DNSRecordValue) (cmd uid : String) (req : Request)
    (httpResp : HTTPResponse) (e : String)
    (hreq : c.buildRequest cmd uid r = .ok req)
    (hdo : c.client req = .ok httpResp)
    (hlo : 200 ≤ httpResp.StatusCode) (hhi : httpResp.StatusCode < 300)
    (hbody : httpResp.Body = .error e) :
    c.sendRequest um r cmd uid = (none, some ("failed to read HTTP body: " ++ e)) ∧
    (cmd = "dns-add_record" →
      c.CreateRecord um r uid = some ("failed to read HTTP body: " ++ e)) ∧
    (cmd = "dns-remove_record" →
      c.DeleteRecord um r uid = some ("failed to read HTTP body: " ++ e)) := by
  have hst : ¬ (httpResp.StatusCode < 200 ∨ httpResp.StatusCode ≥ 300) := by omega
  have hsend : c.sendRequest um r cmd uid
      = (none, some ("failed to read HTTP body: " ++ e)) := by
    simp [DNSClient.sendRequest, hreq, classifyResponse, hdo, hst, hbody]
  refine ⟨hsend, ?_, ?_⟩
  · intro hc; subst hc
    simp [DNSClient.CreateRecord, hsend, suppressUniqueIdUsedErr]
  · intro hc; subst hc
    simp [DNSClient.DeleteRecord, hsend, suppressUniqueIdUsedErr]

/-- Witness for C9: a 200 response whose body read fails yields the
body-read error and a nil response. -/
theorem claim9_witness :
    (DNSClient.mk "k" (fun _ => .ok ⟨200, .error "boom"⟩) "b/").sendRequest
      (fun _ => .ok ⟨"success", "", ""⟩) ⟨"n", "TXT", "v"⟩ "dns-add_record" "u"
      = (none, some "failed to read HTTP body: boom") :=
  (sendRequest_body_read_failure
    (DNSClient.mk "k" (fun _ => .ok ⟨200, .error "boom"⟩) "b/")
    (fun _ => .ok ⟨"success", "", ""⟩) ⟨"n", "TXT", "v"⟩ "dns-add_record" "u"
    ⟨"GET", "b/", agentString,
      [("key", "k"), ("cmd", "dns-add_record"), ("format", "json"), ("unique_id", "u"),
       ("record", "n"), ("type", "TXT"), ("value", "v")]⟩
    ⟨200, .error "boom"⟩ "boom"
    rfl rfl (by decide) (by decide) rfl).1

/-- C10: The idempotency suppression does not depend on a unique identifier
having been supplied: with an empty identifier the built request carries no
`unique_id` parameter at all, yet a parsed non-success response whose
`Data` field equals `"unique_id_already_used"` still makes `CreateRecord`
and `DeleteRecord` return nil (success). -/
theorem suppression_without_unique_id
    (c : DNSClient) (um : String → Except String DreamhostResponse)
    (r : DNSRecordValue) (cmd : String) (req : Request)
    (httpResp : HTTPResponse) (body : String) (apiResp : DreamhostResponse)
    (hreq : c.buildRequest cmd "" r = .ok req)
    (hdo : c.client req = .ok httpResp)
    (hlo : 200 ≤ httpResp.StatusCode) (hhi : httpResp.StatusCode < 300)
    (hbody : httpResp.Body = .ok body)
    (hum : um body = .ok apiResp)
    (hres : apiResp.Result ≠ "success")
    (hdata : apiResp.Data = "unique_id_already_used") :
    (∀ v, ("unique_id", v) ∉ req.query) ∧
    (cmd = "dns-add_record" → c.CreateRecord um r "" = none) ∧
    (cmd = "dns-remove_record" → c.DeleteRecord um r "" = none) := by
  have hst : ¬ (httpResp.StatusCode < 200 ∨ httpResp.StatusCode ≥ 300) := by omega
  have hsend : c.sendRequest um r cmd ""
      = (some apiResp,
         some ("dreamhost API returned non-successful result: " ++ apiResp.format)) := by
    simp [DNSClient.sendRequest, hreq, classifyResponse, hdo, hst, hbody, hum, hres]
  refine ⟨?_, ?_, ?_⟩
  · intro v
    simp [DNSClient.buildRequest, DNSClient.prepareRequest, DNSRecordValue.addToReq] at hreq
    split_ifs at hreq <;> simp_all [Prod.ext_iff] <;> simp [← hreq, Prod.ext_iff]
  · intro hc; subst hc
    simp [DNSClient.CreateRecord, hsend, suppressUniqueIdUsedErr, hdata]
  · intro hc; subst hc
    simp [DNSClient.DeleteRecord, hsend, suppressUniqueIdUsedErr, hdata]

/-- Witness for C10: a sentinel non-success response is suppressed into
success even though the call supplied no unique identifier. -/
theorem claim10_witness :
    (DNSClient.mk "k" (fun _ => .ok ⟨200, .ok "B"⟩) "b/").CreateRecord
      (fun _ => .ok ⟨"error", "unique_id_already_used", ""⟩) ⟨"n", "TXT", "v"⟩ "" = none :=
  ((suppression_without_unique_id
    (DNSClient.mk "k" (fun _ => .ok ⟨200, .ok "B"⟩) "b/")
    (fun _ => .ok ⟨"error", "unique_id_already_used", ""⟩) ⟨"n", "TXT", "v"⟩ "dns-add_record"
    ⟨"GET", "b/", agentString,
      [("key", "k"), ("cmd", "dns-add_record"), ("format", "json"),
       ("record", "n"), ("type", "TXT"), ("value", "v")]⟩
    ⟨200, .ok "B"⟩ "B" ⟨"error", "unique_id_already_used", ""⟩
    rfl rfl (by decide) (by decide) rfl rfl (by decide) rfl).2.1) rfl

end Dreamhost
